import Mathlib

/-!
Verification of the tender-research-agent repository.

This file shallowly embeds the parts of the Python source that the
specification's claims are about:

* `src/app/orchestrator/workflow.py` — the LangGraph workflow: node
  functions, the refine/write/end decision, and the run loop;
* `src/app/agents/research_agent.py` — fallback RFP extraction
  (regex deadline and requirement extraction, categorisation,
  priority), evidence confidence scoring, and insight mapping;
* `src/app/agents/validator_agent.py` — the validation report built on
  the primary path and by the deterministic fallback.

Python floats are modelled by `ℚ` (all arithmetic involved is exact
decimal arithmetic and order comparison), Python ints by `Int`,
Python strings by `String` with ASCII-level `lower`/`strip`/`split`
helpers, and the regular expressions used by the fallback extractor by
a small executable matcher with Python `re` leftmost/greedy/backtrack
semantics over the character classes those patterns use.
External calls (the chat-completion service, web search, file I/O) are
modelled by explicit outcome parameters: each call either returns a
value or raises, mirroring the `try/except` structure of the source.
-/

namespace TenderResearch

/-! ## Python string primitives -/

/-- Python `str.lower()` (ASCII; the inputs in the claims are ASCII). -/
def pyLower (s : String) : String := String.mk (s.toList.map Char.toLower)

/-- Python `str.replace(" ", "")`. -/
def removeSpaces (s : String) : String := String.mk (s.toList.filter (· ≠ ' '))

/-- Python `\s` / `str.isspace` character set: space, tab, newline,
carriage return, vertical tab, form feed. -/
def isPyWs (c : Char) : Bool :=
  c = ' ' || c = '\t' || c = '\n' || c = '\r' || c = '\x0b' || c = '\x0c'

/-- Python `str.strip()`: drop leading and trailing whitespace. -/
def pyStrip (s : String) : String :=
  String.mk (((s.toList.dropWhile isPyWs).reverse.dropWhile isPyWs).reverse)

/-- Does `needle` occur at the start of `hay`? (helper for `strContains`). -/
def startsWithChars : List Char → List Char → Bool
  | _, [] => true
  | [], _ :: _ => false
  | h :: hs, n :: ns => h = n && startsWithChars hs ns

/-- Python `needle in hay` substring test on character lists. -/
def containsChars : List Char → List Char → Bool
  | hay, needle =>
    if startsWithChars hay needle then true
    else match hay with
      | [] => false
      | _ :: rest => containsChars rest needle

/-- Python `needle in hay` substring test on strings. -/
def strContains (hay needle : String) : Bool :=
  containsChars hay.toList needle.toList

/-- Helper for `pySplitWs`: `acc` holds the (reversed) current word. -/
def pySplitWsAux : List Char → List Char → List String
  | [], acc => if acc.isEmpty then [] else [String.mk acc.reverse]
  | c :: rest, acc =>
    if isPyWs c then
      if acc.isEmpty then pySplitWsAux rest []
      else String.mk acc.reverse :: pySplitWsAux rest []
    else pySplitWsAux rest (c :: acc)

/-- Python `str.split()` with no argument: split on whitespace runs,
dropping empty pieces. -/
def pySplitWs (s : String) : List String :=
  pySplitWsAux s.toList []

/-! ## Data model (`src/app/models/schemas.py`) -/

/-- Schema `RequirementCategory` (schemas.py lines 10-23). -/
inductive RequirementCategory where
  | features | integration | licensing | roi | support | timeline
  | presentation | evaluation | implementation | users | capabilities
deriving DecidableEq, Repr

/-- The string value of a `RequirementCategory` member (`.value`). -/
def RequirementCategory.value : RequirementCategory → String
  | .features => "features"
  | .integration => "integration"
  | .licensing => "licensing"
  | .roi => "roi"
  | .support => "support"
  | .timeline => "timeline"
  | .presentation => "presentation"
  | .evaluation => "evaluation"
  | .implementation => "implementation"
  | .users => "users"
  | .capabilities => "capabilities"

/-- Schema `Requirement` (schemas.py lines 26-35). -/
structure Requirement where
  id : String
  text : String
  category : RequirementCategory
  priority : String := "medium"
  business_impact : String := ""
  evaluation_weight : ℚ := 0
  source_section : String := ""
deriving DecidableEq, Repr

/-- Schema `ContactInfo` (schemas.py lines 38-45). -/
structure ContactInfo where
  name : String := ""
  title : String := ""
  email : String := ""
  phone : String := ""
  organization : String := ""
deriving DecidableEq, Repr

/-- Schema `PresentationDetails` (schemas.py lines 48-56). -/
structure PresentationDetails where
  date : String := ""
  location : String := ""
  duration : String := ""
  format : String := ""
  attendees : List String := []
  topics_to_cover : List String := []
deriving DecidableEq, Repr

/-- Schema `TimelineItem` (schemas.py lines 59-64). -/
structure TimelineItem where
  milestone : String
  date : String
  status : String := "pending"
deriving DecidableEq, Repr

/-- Schema `EvaluationCriteria` (schemas.py lines 67-73). -/
structure EvaluationCriteria where
  criterion : String
  weight : ℚ := 0
  description : String := ""
  scoring_method : String := ""
deriving DecidableEq, Repr

/-- Schema `RFPMeta` (schemas.py lines 76-92). -/
structure RFPMeta where
  title : String
  version : String := "1.0"
  deadline_iso : String
  purpose : String := ""
  organization : String := ""
  project_description : String := ""
  budget_indication : String := ""
  contract_duration : String := ""
  presentation_details : Option PresentationDetails := none
  timeline : List TimelineItem := []
  evaluation_criteria : List EvaluationCriteria := []
  contact_info : List ContactInfo := []
  submission_requirements : List String := []
  special_conditions : List String := []
deriving DecidableEq, Repr

/-- Schema `CompanyProfile` (schemas.py lines 95-114). -/
structure CompanyProfile where
  name : String
  overview : String := ""
  hq : String := ""
  sites : List String := []
  industry : String := ""
  size : String := ""
  leadership : List String := []
  financial_info : String := ""
  certifications : List String := []
  technology_stack : List String := []
  service_areas : List String := []
  market_position : String := ""
  recent_projects : List String := []
  partnerships : List String := []
  additional_info : String := ""
deriving DecidableEq, Repr

/-- Schema `Evidence` (schemas.py lines 117-125). -/
structure Evidence where
  source_url : String
  snippet : String
  confidence : ℚ
  tags : List String := []
deriving DecidableEq, Repr

/-- Schema `MappedInsight` (schemas.py lines 128-138). -/
structure MappedInsight where
  requirement_id : String
  rationale : String
  supporting_evidence_idx : List Nat := []
  confidence : ℚ
deriving DecidableEq, Repr

/-- Embedding of `ResearchFindings` (schemas.py lines 141-152). -/
structure ResearchFindings where
  rfp_meta : RFPMeta
  extracted_requirements : List Requirement := []
  company_profile : CompanyProfile
  evidence : List Evidence := []
  mapped_insights : List MappedInsight := []
deriving DecidableEq, Repr

/-- Schema `Gap` (schemas.py lines 155-162). -/
structure Gap where
  requirement_id : String
  why : String
  suggested_queries : List String := []
deriving DecidableEq, Repr

/-- Schema `ValidationReport` (schemas.py lines 165-184). -/
structure ValidationReport where
  coverage_score : ℚ
  rfp_validation_score : ℚ := 0
  extraction_accuracy : ℚ := 0
  gaps : List Gap := []
  quality_notes : List String := []
  rfp_validation_notes : List String := []
  is_sufficient : Bool
deriving DecidableEq, Repr

/-- Schema `BidSection` (schemas.py lines 187-191). -/
structure BidSection where
  title : String
  markdown : String
deriving DecidableEq, Repr

/-- Schema `BidOutline` (schemas.py lines 194-197). -/
structure BidOutline where
  sections : List BidSection := []
deriving DecidableEq, Repr

/-! ## A small matcher for the regular expressions of `research_agent.py`

The fallback extractor (`_fallback_extraction`, research_agent.py lines
270-484) uses `re.search` / `re.finditer` with `re.IGNORECASE` over a
fixed bank of patterns.  Those patterns are built from case-insensitive
literals, the character classes `\s`, `[:\s]`, `\d`, `\w`, `[^.]`,
`[^\n\r]` (each under `+` or a bounded repetition), optional groups and
small alternations.  The matcher below implements exactly this fragment
with Python semantics: leftmost match, greedy repetition with
backtracking, alternatives tried left to right. -/

/-- The character classes occurring in the patterns. -/
inductive CharCls where
  | ws        -- `\s`
  | colonWs   -- `[:\s]`
  | digit     -- `\d`
  | word      -- `\w` (ASCII)
  | notDot    -- `[^.]`
  | notNl     -- `[^\n\r]`
deriving DecidableEq, Repr

def CharCls.mem : CharCls → Char → Bool
  | .ws, c => isPyWs c
  | .colonWs, c => c = ':' || isPyWs c
  | .digit, c => c.isDigit
  | .word, c => c.isAlphanum || c = '_'
  | .notDot, c => c ≠ '.'
  | .notNl, c => c ≠ '\n' && c ≠ '\r'

/-- Pattern tokens.  `cap` is a capturing group over a repeated class
(`(cls+)`); all capture groups in the source patterns have this shape or
span the whole pattern (in which case group(1) = group(0) and no `cap`
token is needed).  `alt bs` is `(?:b₁|b₂|…)`; an optional piece `X?` is
`alt [X, []]`. -/
inductive Tok where
  | lit (s : List Char)
  | plus (cls : CharCls)
  | rep (cls : CharCls) (lo hi : Nat)
  | cap (cls : CharCls)
  | alt (branches : List (List Tok))
deriving Repr

/-- Case-insensitive literal match of `s` at position `pos` of `t`. -/
def litMatchAt (t : Array Char) (s : List Char) (pos : Nat) : Bool :=
  match s with
  | [] => true
  | c :: rest =>
    if h : pos < t.size then
      (t[pos].toLower = c.toLower) && litMatchAt t rest (pos + 1)
    else false

/-- Length of the maximal run of characters of class `cls` starting at
`pos`. -/
def runLen (t : Array Char) (cls : CharCls) (pos : Nat) : Nat :=
  ((t.toList.drop pos).takeWhile cls.mem).length

/-- Fuel that the backtracking matcher can never exhaust on the
patterns of this file: every recursive call below strictly decreases
the lexicographic pair (remaining token weight, inner counter), where
the weight of a token list counts 1 per token plus, for each
alternation, 1 per branch plus the branches' own weights, and the
inner counter is at most `t.size + 2`.  The call depth is therefore
below `(W + 1) * (t.size + 3)` for a pattern of weight `W`, and every
pattern in this file has weight below 64.  Fuel only makes the
recursion structural (so that the kernel can evaluate the matcher); it
plays no role in the semantics. -/
def matchFuel (t : Array Char) : Nat :=
  128 * (t.size + 3)

mutual

/-- Match the token list `toks` at position `pos` of `t`.  Returns the
span `(start, stop)` of the first capture group (if the pattern has
one) and the end position of the match. -/
def matchToks (t : Array Char) : Nat → (toks : List Tok) → (pos : Nat) →
    Option (Option (Nat × Nat) × Nat)
  | 0, _, _ => none
  | _ + 1, [], pos => some (none, pos)
  | fuel + 1, .lit s :: rest, pos =>
    if litMatchAt t s pos then matchToks t fuel rest (pos + s.length) else none
  | fuel + 1, .plus cls :: rest, pos =>
    tryLens t fuel rest pos (runLen t cls pos) 1
  | fuel + 1, .rep cls lo hi :: rest, pos =>
    tryLens t fuel rest pos (min hi (runLen t cls pos)) lo
  | fuel + 1, .cap cls :: rest, pos =>
    tryCapLens t fuel rest pos (runLen t cls pos)
  | fuel + 1, .alt bs :: rest, pos => tryBranches t fuel bs rest pos
termination_by structural fuel _ _ => fuel

/-- Greedy repetition with backtracking: try to consume `k` characters,
then `k - 1`, …, down to `lo`; the continuation is `rest`. -/
def tryLens (t : Array Char) :
    Nat → (rest : List Tok) → (pos k lo : Nat) →
    Option (Option (Nat × Nat) × Nat)
  | 0, _, _, _, _ => none
  | fuel + 1, rest, pos, k, lo =>
    if k < lo then none
    else
      match matchToks t fuel rest (pos + k) with
      | some r => some r
      | none => if k = 0 then none else tryLens t fuel rest pos (k - 1) lo
termination_by structural fuel _ _ _ _ => fuel

/-- Like `tryLens` with `lo = 1`, recording the consumed span as the
capture group. -/
def tryCapLens (t : Array Char) :
    Nat → (rest : List Tok) → (pos k : Nat) →
    Option (Option (Nat × Nat) × Nat)
  | 0, _, _, _ => none
  | fuel + 1, rest, pos, k =>
    if k < 1 then none
    else
      match matchToks t fuel rest (pos + k) with
      | some (_, e) => some (some (pos, pos + k), e)
      | none => if k = 0 then none else tryCapLens t fuel rest pos (k - 1)
termination_by structural fuel _ _ _ => fuel

/-- Alternation: try each branch (followed by the continuation `rest`)
left to right. -/
def tryBranches (t : Array Char) :
    Nat → (bs : List (List Tok)) → (rest : List Tok) → (pos : Nat) →
    Option (Option (Nat × Nat) × Nat)
  | 0, _, _, _ => none
  | _ + 1, [], _, _ => none
  | fuel + 1, b :: bs', rest, pos =>
    match matchToks t fuel (b ++ rest) pos with
    | some r => some r
    | none => tryBranches t fuel bs' rest pos
termination_by structural fuel _ _ _ => fuel

end

/-- The text as a character array (the matcher's subject). -/
def textArr (s : String) : Array Char := s.toList.toArray

/-- The substring of `t` from position `s` (inclusive) to `e` (exclusive). -/
def sliceStr (t : Array Char) (s e : Nat) : String :=
  String.mk ((t.toList.drop s).take (e - s))

/-- Python `re.search` scanning loop: `rem` counts the positions left to try
(`pos`, `pos + 1`, …, `t.size`). -/
def reSearchFuel (t : Array Char) (toks : List Tok) :
    Nat → Nat → Option (Option (Nat × Nat) × Nat × Nat)
  | 0, _ => none
  | rem + 1, pos =>
    match matchToks t (matchFuel t) toks pos with
    | some (c, e) => some (c, pos, e)
    | none => reSearchFuel t toks rem (pos + 1)

/-- Python `re.search`: try the pattern at every position from `pos`
on, left to right; return the capture span (if any), match start and
match end of the leftmost match. -/
def reSearchAux (t : Array Char) (toks : List Tok) (pos : Nat) :
    Option (Option (Nat × Nat) × Nat × Nat) :=
  reSearchFuel t toks (t.size + 1 - pos) pos

/-- Python `match.group(1) if the pattern has a group else
match.group(0)` for the leftmost `re.search` match. -/
def searchGroup (t : Array Char) (toks : List Tok) : Option String :=
  match reSearchAux t toks 0 with
  | some (c, s, e) =>
    match c with
    | some (gs, ge) => some (sliceStr t gs ge)
    | none => some (sliceStr t s e)
  | none => none

/-- Python `re.finditer` scanning loop: each found match resumes the scan at
`max e (s + 1)`; `rem` bounds the number of matches, and is never
exhausted when started at `t.size + 1` because every match strictly
advances the resume position, which stays within the text. -/
def findAllFuel (t : Array Char) (toks : List Tok) :
    Nat → Nat → List (Option (Nat × Nat) × Nat × Nat)
  | 0, _ => []
  | rem + 1, pos =>
    match reSearchAux t toks pos with
    | none => []
    | some (c, s, e) => (c, s, e) :: findAllFuel t toks rem (max e (s + 1))

/-- Python `re.finditer`: all non-overlapping matches, scanning left to
right and resuming after each match's end. -/
def findAllAux (t : Array Char) (toks : List Tok) (pos : Nat) :
    List (Option (Nat × Nat) × Nat × Nat) :=
  findAllFuel t toks (t.size + 1) pos

/-- Python `group(1) if groups else group(0)` for every `re.finditer` match. -/
def findAllGroups (t : Array Char) (toks : List Tok) : List String :=
  (findAllAux t toks 0).map fun r =>
    match r with
    | (some (gs, ge), _, _) => sliceStr t gs ge
    | (none, s, e) => sliceStr t s e

/-! ## Fallback RFP extraction (`research_agent.py`, `_fallback_extraction`) -/

/-- The optional ordinal suffix `(?:st|nd|rd|th)?` -/
def ordSuffix : Tok :=
  .alt [[.lit "st".toList], [.lit "nd".toList], [.lit "rd".toList],
        [.lit "th".toList], []]

/-- The `deadline_patterns` list (research_agent.py lines 309-315), in
source order:
`deadline[:\s]+([^\n\r]+)`, `due[:\s]+([^\n\r]+)`,
`submission[:\s]+([^\n\r]+)`,
`(\d{1,2}(?:st|nd|rd|th)?\s+\w+\s+\d{4})`,
`(\w+\s+\d{1,2}(?:st|nd|rd|th)?,?\s+\d{4})`.
In the last two the capture group spans the whole pattern, so
`group(1) = group(0)` and no `cap` token is needed. -/
def deadlinePatterns : List (List Tok) :=
  [ [.lit "deadline".toList, .plus .colonWs, .cap .notNl],
    [.lit "due".toList, .plus .colonWs, .cap .notNl],
    [.lit "submission".toList, .plus .colonWs, .cap .notNl],
    [.rep .digit 1 2, ordSuffix, .plus .ws, .plus .word, .plus .ws,
     .rep .digit 4 4],
    [.plus .word, .plus .ws, .rep .digit 1 2, ordSuffix,
     .alt [[.lit ",".toList], []], .plus .ws, .rep .digit 4 4] ]

/-- First pattern of the list that has a `re.search` match wins. -/
def firstSearchGroup (t : Array Char) : List (List Tok) → Option String
  | [] => none
  | p :: ps =>
    match searchGroup t p with
    | some g => some g
    | none => firstSearchGroup t ps

/-- The deadline computed by `_fallback_extraction` (research_agent.py
lines 307-320): first match among `deadline_patterns`, stripped,
defaulting to `"2025-12-31T23:59:59"`. -/
def fallbackDeadline (text : String) : String :=
  match firstSearchGroup (textArr text) deadlinePatterns with
  | some g => pyStrip g
  | none => "2025-12-31T23:59:59"

/-- The `req_patterns` list (research_agent.py lines 441-456), in
source order. -/
def reqPatterns : List (List Tok) :=
  [ [.lit "req-".toList, .plus .digit, .plus .colonWs, .cap .notDot],
    [.lit "requirement".toList, .alt [[.lit "s".toList], []], .plus .ws,
     .plus .digit, .plus .colonWs, .cap .notDot],
    [.lit "must".toList, .plus .ws,
     .alt [[.lit "be".toList, .plus .ws, .lit "able".toList, .plus .ws,
            .lit "to".toList, .plus .ws], []],
     .cap .notDot],
    [.lit "shall".toList, .plus .ws, .cap .notDot],
    [.lit "should".toList, .plus .ws, .cap .notDot],
    [.lit "the".toList, .plus .ws, .lit "solution".toList, .plus .ws,
     .lit "must".toList, .plus .ws, .cap .notDot],
    [.lit "the".toList, .plus .ws, .lit "system".toList, .plus .ws,
     .lit "shall".toList, .plus .ws, .cap .notDot],
    [.lit "we".toList, .plus .ws, .lit "require".toList, .plus .colonWs,
     .cap .notDot],
    [.lit "capabilities".toList, .plus .colonWs, .cap .notDot],
    [.lit "integration".toList, .plus .ws, .lit "with".toList, .plus .ws,
     .cap .notDot],
    [.plus .digit, .plus .ws, .lit "super".toList, .plus .ws,
     .lit "user".toList, .plus .ws, .lit "accounts".toList],
    [.plus .digit, .plus .ws, .lit "additional".toList, .plus .ws,
     .lit "users".toList],
    [.lit "ai-driven".toList, .plus .ws, .cap .notDot],
    [.lit "web-based".toList, .plus .ws, .cap .notDot] ]

/-- Embedding of `_categorize_requirement` (research_agent.py lines 486-511): keyword
lookup chain over the lower-cased text, first matching branch wins,
default `FEATURES`. -/
def categorizeRequirement (text : String) : RequirementCategory :=
  let tl := pyLower text
  if ["integration", "api", "connect", "interface", "teams", "sharepoint",
      "salesforce"].any (strContains tl) then .integration
  else if ["support", "helpdesk", "service", "maintenance",
           "training"].any (strContains tl) then .support
  else if ["cost", "price", "roi", "budget", "savings",
           "return on investment"].any (strContains tl) then .roi
  else if ["license", "licensing", "permit", "agreement",
           "user accounts"].any (strContains tl) then .licensing
  else if ["timeline", "schedule", "deadline", "time", "duration",
           "implementation"].any (strContains tl) then .timeline
  else if ["presentation", "present", "demo",
           "demonstrate"].any (strContains tl) then .presentation
  else if ["evaluation", "assess", "scoring", "criteria",
           "judge"].any (strContains tl) then .evaluation
  else if ["implement", "deploy", "rollout",
           "go-live"].any (strContains tl) then .implementation
  else if ["users", "accounts", "permissions", "access",
           "super user"].any (strContains tl) then .users
  else if ["capability", "feature", "function", "ai-driven",
           "web-based"].any (strContains tl) then .capabilities
  else .features

/-- Embedding of `_determine_priority` (research_agent.py lines 513-527): keyword
lookup chain over the lower-cased text, default `"medium"`. -/
def determinePriority (text : String) : String :=
  let tl := pyLower text
  if ["must", "shall", "required", "mandatory", "critical",
      "essential"].any (strContains tl) then "critical"
  else if ["should", "important", "key", "significant",
           "major"].any (strContains tl) then "high"
  else if ["nice to have", "optional", "preferred", "desired",
           "could"].any (strContains tl) then "low"
  else "medium"

/-- Python `f"REQ-{n:03d}"`. -/
def reqIdStr (n : Nat) : String :=
  let s := toString n
  "REQ-" ++ (if s.length < 3 then String.mk (List.replicate (3 - s.length) '0') ++ s else s)

/-- One requirement built by the regex branch of `_fallback_extraction`
(research_agent.py lines 469-477). -/
def mkRegexRequirement (rid : Nat) (rtext : String) : Requirement :=
  { id := reqIdStr rid
    text := rtext
    category := categorizeRequirement rtext
    priority := determinePriority rtext
    business_impact := "Extracted from regex patterns"
    evaluation_weight := 0
    source_section := "Regex pattern extraction" }

/-- The inner `for match in matches` loop of the regex branch
(research_agent.py lines 461-480): length filter (10,300), dedup by
case-insensitive substring containment against already-collected texts,
append, and `break` once `req_id` exceeds 25. -/
def regexReqInnerLoop :
    List String → List Requirement → Nat → (List Requirement × Nat)
  | [], reqs, rid => (reqs, rid)
  | g :: rest, reqs, rid =>
    let rtext := pyStrip g
    if 10 < rtext.length ∧ rtext.length < 300 then
      if reqs.any (fun ex => strContains (pyLower ex.text) (pyLower rtext)) then
        regexReqInnerLoop rest reqs rid
      else
        let reqs' := reqs ++ [mkRegexRequirement rid rtext]
        if rid + 1 > 25 then (reqs', rid + 1)
        else regexReqInnerLoop rest reqs' (rid + 1)
    else regexReqInnerLoop rest reqs rid

/-- The outer `for pattern in req_patterns` loop (research_agent.py
lines 459-482), with its own `break` once `req_id` exceeds 25. -/
def regexReqOuterLoop (t : Array Char) :
    List (List Tok) → List Requirement → Nat → List Requirement
  | [], reqs, _ => reqs
  | p :: ps, reqs, rid =>
    let (reqs', rid') := regexReqInnerLoop (findAllGroups t p) reqs rid
    if rid' > 25 then reqs' else regexReqOuterLoop t ps reqs' rid'

/-- The regex branch of `_fallback_extraction` (research_agent.py lines
438-482), entered when the LLM-based branch collected fewer than 3
requirements; `existing` is the list collected so far
(`req_id = len(requirements) + 1`). -/
def fallbackRegexRequirements (text : String) (existing : List Requirement) :
    List Requirement :=
  regexReqOuterLoop (textArr text) reqPatterns existing (existing.length + 1)

/-! ## Evidence confidence (`_calculate_confidence`, research_agent.py
lines 911-933) -/

/-- Python `min(a, b)` on exact rationals. -/
def ratMin (a b : ℚ) : ℚ := if a ≤ b then a else b

/-- Embedding of `_calculate_confidence(search_result, requirement, company_profile)`:
`url`/`snippet` are the search result's fields, `reqText` the
requirement's text, `companyName` the company profile's name. -/
def calculateConfidence (url snippet reqText companyName : String) : ℚ :=
  let urlScore : ℚ :=
    if strContains (pyLower url) (removeSpaces (pyLower companyName)) then 3/10
    else if [".gov", ".edu", ".org"].any (fun d => strContains url d) then 2/10
    else 0
  let snippetLower := pyLower snippet
  let reqWords := pySplitWs (pyLower reqText)
  let wordMatches := (reqWords.filter (fun w => strContains snippetLower w)).length
  let wordScore : ℚ :=
    if wordMatches > 0 then
      ratMin (4/10) ((wordMatches : ℚ) / (reqWords.length : ℚ) * (4/10))
    else 0
  let nameScore : ℚ :=
    if strContains snippetLower (pyLower companyName) then 2/10 else 0
  ratMin 1 (urlScore + wordScore + nameScore)

/-! ## Insight mapping (`_create_insights`, research_agent.py lines
935-962) -/

/-- The relevance test of `_create_insights`: the evidence is tagged
with the requirement's category value, or one of the first three
whitespace-split words of the requirement text occurs in the snippet
(case-insensitive). -/
def isRelevantEvidence (req : Requirement) (ev : Evidence) : Bool :=
  ev.tags.contains req.category.value ||
    ((pySplitWs (pyLower req.text)).take 3).any
      (fun w => strContains (pyLower ev.snippet) w)

/-- The `(j, ev)` pairs of `enumerate(evidence)` kept as relevant for a
requirement, in index order. -/
def relevantEvidencePairs (req : Requirement) (evidence : List Evidence) :
    List (Nat × Evidence) :=
  evidence.enum.filter (fun p => isRelevantEvidence req p.2)

/-- The per-requirement body of the `_create_insights` loop: `none`
when no evidence is relevant (the requirement silently gets no
insight), otherwise the insight with the kept indices and the mean of
the kept confidences. -/
def insightFor (evidence : List Evidence) (req : Requirement) :
    Option MappedInsight :=
  let rel := relevantEvidencePairs req evidence
  if rel.isEmpty then none
  else some
    { requirement_id := req.id
      rationale := "Evidence found supporting " ++ req.category.value
          ++ " requirement"
      supporting_evidence_idx := rel.map Prod.fst
      confidence := (rel.map (fun p => p.2.confidence)).sum / (rel.length : ℚ) }

/-- Embedding of `_create_insights`: one insight per requirement with at least one
relevant evidence item, in requirement order. -/
def createInsights (requirements : List Requirement) (evidence : List Evidence) :
    List MappedInsight :=
  requirements.filterMap (insightFor evidence)

/-! ## Requirement extraction (`_extract_rfp_requirements`,
research_agent.py lines 35-268) -/

/-- Outcome of a call into external code: a normal return, or a raised
exception carrying its message. -/
inductive StageOutcome (α : Type) where
  | ok (val : α)
  | err (msg : String)
deriving DecidableEq, Repr

/-- Python `hay.find(needle)` (as `Option`; `none` for Python's `-1`). -/
def pyFindAux : List Char → List Char → Nat → Option Nat
  | hay, needle, i =>
    if startsWithChars hay needle then some i
    else match hay with
      | [] => none
      | _ :: rest => pyFindAux rest needle (i + 1)

def pyFind (hay needle : String) : Option Nat :=
  pyFindAux hay.toList needle.toList 0

/-- Python `hay.find(needle, start)`. -/
def pyFindFrom (hay needle : String) (start : Nat) : Option Nat :=
  (pyFindAux (hay.toList.drop start) needle.toList 0).map (· + start)

/-- Python `s[a:b]` for `0 ≤ a ≤ b`. -/
def pySlice (s : String) (a b : Nat) : String :=
  String.mk ((s.toList.drop a).take (b - a))

/-- The markdown-fence unwrapping of `_extract_rfp_requirements`
(research_agent.py lines 190-203): prefer a ` ```json ` block, else a
bare ` ``` ` block, keeping the stripped text between the fences when
the closing fence comes after the opening one. -/
def extractFencedJson (responseText : String) : String :=
  match pyFind responseText "```json" with
  | some i =>
    let start := i + 7
    match pyFindFrom responseText "```" start with
    | some e =>
      if e > start then pyStrip (pySlice responseText start e) else responseText
    | none => responseText
  | none =>
    match pyFind responseText "```" with
    | some i =>
      let start := i + 3
      match pyFindFrom responseText "```" start with
      | some e =>
        if e > start then pyStrip (pySlice responseText start e) else responseText
      | none => responseText
    | none => responseText

/-- Embedding of `_extract_rfp_requirements` (research_agent.py lines 180-268),
abstracted over external code:

* `llm` is the outcome of `self.llm.invoke(messages)` at lines 180-181.
  This call stands **before** the `try:` block, so a raised exception
  propagates out of the stage unchanged.
* `parse` models `json.loads` plus the required-field check and the
  Pydantic model construction of lines 206-254 (external library code);
  `none` covers every failure mode handled by the `except` arms
  (`JSONDecodeError`, `KeyError`/`ValueError`, any other `Exception`).
* `fallback` is the `(RFPMeta, requirements)` pair produced by
  `_fallback_extraction`, returned on empty responses and on every
  parse failure. -/
def extractRfpRequirements (llm : StageOutcome String)
    (parse : String → Option (RFPMeta × List Requirement))
    (fallback : RFPMeta × List Requirement) :
    StageOutcome (RFPMeta × List Requirement) :=
  match llm with
  | .err m => .err m
  | .ok content =>
    let responseText := pyStrip content
    if responseText = "" then .ok fallback
    else
      match parse (extractFencedJson responseText) with
      | some r => .ok r
      | none => .ok fallback

/-! ## Validation reports (`validator_agent.py`) -/

/-- Python `f"{q:.2f}"` on the exact rational value (round half to
even, two decimals). -/
def formatScore2 (q : ℚ) : String :=
  let x := q * 100
  let fl : ℤ := ⌊x⌋
  let n : ℤ :=
    if (x - fl : ℚ) > 1/2 then fl + 1
    else if (x - fl : ℚ) < 1/2 then fl
    else if fl % 2 = 0 then fl else fl + 1
  let sign := if n < 0 then "-" else ""
  let m := n.natAbs
  sign ++ toString (m / 100) ++ "."
    ++ (if m % 100 < 10 then "0" ++ toString (m % 100) else toString (m % 100))

/-- The gap explanation string used by both validator paths
(validator_agent.py lines 60 and 322). -/
def validationGapWhy (score : ℚ) : String :=
  "Validation score " ++ formatScore2 score
    ++ " below threshold 0.7 - additional research needed"

/-- The report assembled on the primary path of `ValidatorAgent.process`
(validator_agent.py lines 43-72) from the parsed LLM reply
`{validation_score, additional_search_queries, validation_notes}`. -/
def mkPrimaryValidationReport (validationScore : ℚ)
    (additionalQueries validationNotes : List String) : ValidationReport :=
  let isSufficient : Bool := decide ((7 : ℚ)/10 ≤ validationScore)
  let gaps : List Gap :=
    if ¬ isSufficient ∧ additionalQueries ≠ [] then
      [{ requirement_id := "ADDITIONAL_RESEARCH"
         why := validationGapWhy validationScore
         suggested_queries := additionalQueries }]
    else []
  { coverage_score := validationScore
    rfp_validation_score := validationScore
    extraction_accuracy := validationScore
    gaps := gaps
    quality_notes := validationNotes
    rfp_validation_notes := []
    is_sufficient := isSufficient }

/-- Embedding of `_simple_fallback_validation` (validator_agent.py lines 286-334). -/
def simpleFallbackValidation (findings : ResearchFindings) : ValidationReport :=
  let validationScore : ℚ :=
    if findings.extracted_requirements = [] then 0
    else
      let covered := (findings.mapped_insights.map (·.requirement_id)).dedup
      let coverageRatio : ℚ :=
        (covered.length : ℚ) / (findings.extracted_requirements.length : ℚ)
      if findings.evidence ≠ [] then
        coverageRatio *
          ((findings.evidence.map (·.confidence)).sum / (findings.evidence.length : ℚ))
      else coverageRatio * (1/2)
  let additionalQueries : List String :=
    if validationScore < 7/10 then
      let n := findings.company_profile.name
      [n ++ " case studies and success stories",
       n ++ " technical capabilities and certifications",
       n ++ " relevant project experience",
       n ++ " competitive advantages and differentiators",
       n ++ " industry expertise and partnerships"]
    else []
  let gaps : List Gap :=
    if validationScore < 7/10 ∧ additionalQueries ≠ [] then
      [{ requirement_id := "ADDITIONAL_RESEARCH"
         why := validationGapWhy validationScore
         suggested_queries := additionalQueries }]
    else []
  { coverage_score := validationScore
    rfp_validation_score := validationScore
    extraction_accuracy := validationScore
    gaps := gaps
    quality_notes := ["Simple validation score: " ++ formatScore2 validationScore]
    rfp_validation_notes := []
    is_sufficient := decide ((7 : ℚ)/10 ≤ validationScore) }

/-! ## The workflow (`src/app/orchestrator/workflow.py`)

`WorkflowState` is the LangGraph `TypedDict` (lines 17-33).  The empty
dicts `{}` used as "not yet produced" values for `research_findings`,
`validation_report` and `bid_outline` (falsy under `state.get(...)`)
are modelled as `none`.  The agents, storage and generators the nodes
call are external to the state machine; an `Env` records the outcome
of each such call — the value returned, or the exception raised —
with `research`/`validate` indexed by the (0-based) iteration pass so
that successive loop passes may behave differently. -/

structure WorkflowState where
  run_id : String
  rfp_path : String
  company_name : String
  max_iterations : Int
  current_iteration : Int
  research_findings : Option ResearchFindings
  validation_report : Option ValidationReport
  bid_outline : Option BidOutline
  bid_research_package_path : String
  unified_bid_document_path : String
  comprehensive_result_path : String
  is_complete : Bool
  errors : List String
deriving DecidableEq, Repr

/-- Outcomes of the external calls made by the workflow nodes. -/
structure Env where
  research : Nat → StageOutcome ResearchFindings
  validate : Nat → StageOutcome ValidationReport
  write : StageOutcome BidOutline
  save : StageOutcome String
  unified : StageOutcome String
  comprehensive : StageOutcome String

/-- Embedding of `_research_node` (workflow.py lines 82-109): on success store the
findings; on any exception append `"Research error: …"` and set
`is_complete`.  (The refinement context assembled at lines 90-99 is an
argument to the agent call and does not change the state.) -/
def researchNode (env : Env) (k : Nat) (s : WorkflowState) : WorkflowState :=
  match env.research k with
  | .ok f => { s with research_findings := some f }
  | .err m =>
    { s with errors := s.errors ++ ["Research error: " ++ m], is_complete := true }

/-- Embedding of `_validate_node` (workflow.py lines 111-133). -/
def validateNode (env : Env) (k : Nat) (s : WorkflowState) : WorkflowState :=
  match s.research_findings with
  | none =>
    { s with errors := s.errors ++ ["No research findings to validate"],
             is_complete := true }
  | some _ =>
    match env.validate k with
    | .ok r => { s with validation_report := some r }
    | .err m =>
      { s with errors := s.errors ++ ["Validation error: " ++ m],
               is_complete := true }

/-- Embedding of `_write_node` (workflow.py lines 135-156): every branch, including
the missing-findings guard and the exception handler, sets
`is_complete`. -/
def writeNode (env : Env) (s : WorkflowState) : WorkflowState :=
  match s.research_findings with
  | none =>
    { s with errors := s.errors ++ ["No research findings for writing"],
             is_complete := true }
  | some _ =>
    match env.write with
    | .ok b => { s with bid_outline := some b, is_complete := true }
    | .err m =>
      { s with errors := s.errors ++ ["Writing error: " ++ m],
               is_complete := true }

/-- Embedding of `_refine_node` (workflow.py lines 158-161). -/
def refineNode (s : WorkflowState) : WorkflowState :=
  { s with current_iteration := s.current_iteration + 1 }

/-- Embedding of `_save_research_node` (workflow.py lines 163-192): the guard and
the exception handler append to `errors` but leave `is_complete`
untouched. -/
def saveResearchNode (env : Env) (s : WorkflowState) : WorkflowState :=
  if s.research_findings.isNone || s.validation_report.isNone then
    { s with errors := s.errors ++
        ["Missing research findings or validation report for saving"] }
  else
    match env.save with
    | .ok p => { s with bid_research_package_path := p }
    | .err m =>
      { s with errors := s.errors ++ ["Research package saving error: " ++ m] }

/-- Embedding of `_generate_unified_node` (workflow.py lines 194-227): same shape as
`_save_research_node`. -/
def generateUnifiedNode (env : Env) (s : WorkflowState) : WorkflowState :=
  if s.research_findings.isNone || s.validation_report.isNone then
    { s with errors := s.errors ++
        ["Missing research findings or validation report for unified document generation"] }
  else
    match env.unified with
    | .ok p => { s with unified_bid_document_path := p }
    | .err m =>
      { s with errors := s.errors ++
          ["Unified document generation error: " ++ m] }

/-- Embedding of `_generate_comprehensive_node` (workflow.py lines 229-262): same
shape as `_save_research_node`. -/
def generateComprehensiveNode (env : Env) (s : WorkflowState) : WorkflowState :=
  if s.research_findings.isNone || s.validation_report.isNone then
    { s with errors := s.errors ++
        ["Missing research findings or validation report for comprehensive result generation"] }
  else
    match env.comprehensive with
    | .ok p => { s with comprehensive_result_path := p }
    | .err m =>
      { s with errors := s.errors ++
          ["Comprehensive result generation error: " ++ m] }

/-- Embedding of `_should_refine` (workflow.py lines 264-284), returning the route
string handed to the conditional edge. -/
def shouldRefine (s : WorkflowState) : String :=
  if s.errors ≠ [] then "end"
  else if s.current_iteration ≥ s.max_iterations then "write"
  else
    match s.validation_report with
    | none => "end"
    | some v => if v.is_sufficient then "write" else "refine"

/-- The linear tail of the graph after the `"write"` route
(workflow.py lines 75-78): write → save_research → generate_unified →
generate_comprehensive → END. -/
def writePipeline (env : Env) (s : WorkflowState) : WorkflowState :=
  generateComprehensiveNode env
    (generateUnifiedNode env (saveResearchNode env (writeNode env s)))

/-- The compiled graph run from a state about to enter the `research`
node on its `k`-th pass (workflow.py lines 49-80): research → validate
→ `_should_refine` → {refine → research | write-pipeline → END | END}.
`fuel` bounds the number of research passes this run may still take;
the returned `Nat` counts the research passes actually executed.
Termination of the real loop is *proved*, not assumed: theorem `C2`
shows fuel `max_iterations + 1` never runs out. -/
def runFrom (env : Env) : Nat → Nat → WorkflowState → Option (Nat × WorkflowState)
  | 0, _, _ => none
  | fuel + 1, k, s =>
    let s2 := validateNode env k (researchNode env k s)
    match shouldRefine s2 with
    | "refine" =>
      match runFrom env fuel (k + 1) (refineNode s2) with
      | some (n, s') => some (n + 1, s')
      | none => none
    | "write" => some (1, writePipeline env s2)
    | _ => some (1, s2)

/-- The initial state built by `ResearchWorkflow.run` (workflow.py
lines 344-358). -/
def initialWorkflowState (run_id rfp_path company_name : String)
    (max_iterations : Int) : WorkflowState :=
  { run_id := run_id
    rfp_path := rfp_path
    company_name := company_name
    max_iterations := max_iterations
    current_iteration := 0
    research_findings := none
    validation_report := none
    bid_outline := none
    bid_research_package_path := ""
    unified_bid_document_path := ""
    comprehensive_result_path := ""
    is_complete := false
    errors := [] }

/-- Embedding of `ResearchWorkflow.run` (workflow.py lines 338-366): invoke the
graph on the initial state, granting `max_iterations + 1` research
passes of fuel. -/
def runWorkflow (env : Env) (run_id rfp_path company_name : String)
    (max_iterations : Int) : Option (Nat × WorkflowState) :=
  runFrom env (max_iterations + 1).toNat 0
    (initialWorkflowState run_id rfp_path company_name max_iterations)

/-- The fallback extraction for the completion-service-unavailable case
(`_fallback_extraction`, research_agent.py lines 270-484, with both
`self.llm.invoke` calls raising): `llm_analysis` is `""`, so the
LLM-based requirement branch (lines 374-436) is skipped, zero
requirements are collected, and the regex branch runs on an empty
list.  The pair holds the deadline and requirement components of the
result; the title/organization/purpose fields of the returned
`RFPMeta` are not modelled (no claim depends on them). -/
def fallbackExtractionNoLlm (text : String) : String × List Requirement :=
  (fallbackDeadline text, fallbackRegexRequirements text [])

/-! ## Concrete fixtures used by witnesses and counterexamples -/

def metaFix : RFPMeta := { title := "Test RFP", deadline_iso := "2025-12-31" }

def profileFix : CompanyProfile := { name := "Acme" }

def findingsFix : ResearchFindings :=
  { rfp_meta := metaFix, company_profile := profileFix }

def reportSufficientFix : ValidationReport :=
  { coverage_score := 1, is_sufficient := true }

def reportInsufficientFix : ValidationReport :=
  { coverage_score := 0, is_sufficient := false }

/-- Findings whose fallback validation score is exactly `0.7`: one
requirement, covered by one insight, one evidence item of confidence
`0.7`. -/
def findingsBoundaryFix : ResearchFindings :=
  { rfp_meta := metaFix
    company_profile := profileFix
    extracted_requirements :=
      [{ id := "R1", text := "alpha beta", category := .features }]
    evidence := [{ source_url := "u", snippet := "s", confidence := 7/10 }]
    mapped_insights :=
      [{ requirement_id := "R1", rationale := "r",
         supporting_evidence_idx := [0], confidence := 7/10 }] }

/-- An environment whose validator always finds the research
insufficient; every other stage succeeds. -/
def envRefineFix : Env :=
  { research := fun _ => .ok findingsFix
    validate := fun _ => .ok reportInsufficientFix
    write := .ok { sections := [] }
    save := .ok "pkg.json"
    unified := .ok "unified.md"
    comprehensive := .ok "result.json" }

/-- An environment where only the save-research stage raises. -/
def envSaveFailsFix : Env :=
  { research := fun _ => .ok findingsFix
    validate := fun _ => .ok reportSufficientFix
    write := .ok { sections := [] }
    save := .err "disk full"
    unified := .ok "unified.md"
    comprehensive := .ok "result.json" }

/-- An environment where the research stage raises. -/
def envResearchFailsFix : Env :=
  { envSaveFailsFix with research := fun _ => .err "no key" }

def stateBaseFix : WorkflowState := initialWorkflowState "run-1" "rfp.pdf" "Acme" 2

def stateErrFix : WorkflowState :=
  { stateBaseFix with errors := ["Research error: boom"] }

def stateIterDoneFix : WorkflowState := { stateBaseFix with max_iterations := 0 }

def stateSufficientFix : WorkflowState :=
  { stateBaseFix with validation_report := some reportSufficientFix }

def stateInsufficientFix : WorkflowState :=
  { stateBaseFix with validation_report := some reportInsufficientFix }

/-- A state entering the post-write stages, with `is_complete` still
`false`, to exhibit that their fault handlers do not set it. -/
def stateMidFix : WorkflowState :=
  { stateBaseFix with research_findings := some findingsFix,
                      validation_report := some reportSufficientFix }

def cReqFix : Requirement := { id := "R1", text := "alpha beta", category := .features }

def cEvFix : Evidence :=
  { source_url := "u", snippet := "has alpha inside", confidence := 1/2 }

/-- The single insight `createInsights [cReqFix] [cEvFix]` produces. -/
def cInsFix : MappedInsight :=
  { requirement_id := "R1"
    rationale := "Evidence found supporting features requirement"
    supporting_evidence_idx := [0]
    confidence := 1/2 }

def parseNoneFix : String → Option (RFPMeta × List Requirement) := fun _ => none

def parseSomeFix : String → Option (RFPMeta × List Requirement) :=
  fun _ => some (metaFix, [cReqFix])

def fbFix : RFPMeta × List Requirement := (metaFix, [])

/-- The RFP text of the spec's extraction scenario. -/
def c8Text : String := "The system shall support 500 users. Deadline: 2025-06-01."

/-- The one requirement the fallback's regex branch extracts from
`c8Text`. -/
def c8ReqFix : Requirement :=
  { id := "REQ-001"
    text := "support 500 users"
    category := .support
    priority := "medium"
    business_impact := "Extracted from regex patterns"
    evaluation_weight := 0
    source_section := "Regex pattern extraction" }

/-! ## Shared lemmas -/

theorem insightFor_eq_some {evidence : List Evidence} {req : Requirement}
    {ins : MappedInsight} (h : insightFor evidence req = some ins) :
    ins.requirement_id = req.id ∧
      ins.supporting_evidence_idx =
        (relevantEvidencePairs req evidence).map Prod.fst := by
  rcases hrel : relevantEvidencePairs req evidence with _ | ⟨p, rest⟩
  · simp [insightFor, hrel] at h
  · simp only [insightFor, hrel, List.isEmpty_cons, Bool.false_eq_true, if_false,
      Option.some.injEq] at h
    rw [← h]
    exact ⟨rfl, rfl⟩

theorem relevant_fst_sublist_range (req : Requirement) (evidence : List Evidence) :
    List.Sublist ((relevantEvidencePairs req evidence).map Prod.fst)
      (List.range evidence.length) := by
  have h := (List.filter_sublist (l := evidence.enum)
    (p := fun p => isRelevantEvidence req p.2)).map Prod.fst
  rwa [List.enum_map_fst] at h

theorem createInsights_mem {reqs : List Requirement} {evidence : List Evidence}
    {ins : MappedInsight} (h : ins ∈ createInsights reqs evidence) :
    ∃ req ∈ reqs, ins.requirement_id = req.id ∧
      ins.supporting_evidence_idx =
        (relevantEvidencePairs req evidence).map Prod.fst := by
  rw [createInsights, List.mem_filterMap] at h
  obtain ⟨req, hreq, hf⟩ := h
  obtain ⟨h1, h2⟩ := insightFor_eq_some hf
  exact ⟨req, hreq, h1, h2⟩

theorem filterMap_map_sublist {α β γ : Type _} (f : α → Option β) (g : β → γ)
    (k : α → γ) (H : ∀ a b, f a = some b → g b = k a) :
    ∀ l : List α, List.Sublist ((l.filterMap f).map g) (l.map k)
  | [] => by simp
  | a :: l => by
    cases hfa : f a with
    | none =>
      simp only [List.filterMap_cons, hfa, List.map_cons]
      exact List.Sublist.cons _ (filterMap_map_sublist f g k H l)
    | some b =>
      simp only [List.filterMap_cons, hfa, List.map_cons]
      rw [H a b hfa]
      exact List.Sublist.cons₂ _ (filterMap_map_sublist f g k H l)

theorem writeNode_complete (env : Env) (s : WorkflowState) :
    (writeNode env s).is_complete = true := by
  rw [writeNode]
  cases s.research_findings
  · rfl
  · cases env.write <;> rfl

theorem saveResearchNode_complete (env : Env) (s : WorkflowState) :
    (saveResearchNode env s).is_complete = s.is_complete := by
  rw [saveResearchNode]
  split
  · rfl
  · cases env.save <;> rfl

theorem generateUnifiedNode_complete (env : Env) (s : WorkflowState) :
    (generateUnifiedNode env s).is_complete = s.is_complete := by
  rw [generateUnifiedNode]
  split
  · rfl
  · cases env.unified <;> rfl

theorem generateComprehensiveNode_complete (env : Env) (s : WorkflowState) :
    (generateComprehensiveNode env s).is_complete = s.is_complete := by
  rw [generateComprehensiveNode]
  split
  · rfl
  · cases env.comprehensive <;> rfl

/-- Reaching the write route always ends with `is_complete = true`:
`_write_node` sets it on every branch and the three artifact nodes
never change it. -/
theorem writePipeline_complete (env : Env) (s : WorkflowState) :
    (writePipeline env s).is_complete = true := by
  rw [writePipeline, generateComprehensiveNode_complete,
    generateUnifiedNode_complete, saveResearchNode_complete,
    writeNode_complete]

/-! ## Claim theorems -/

/-- C9: the refine step increments `current_iteration` by exactly one
and leaves every other field of the workflow state unchanged
(`_refine_node`, workflow.py lines 158-161). -/
theorem C9_refine_frame (s : WorkflowState) :
    (refineNode s).current_iteration = s.current_iteration + 1
    ∧ (refineNode s).run_id = s.run_id
    ∧ (refineNode s).rfp_path = s.rfp_path
    ∧ (refineNode s).company_name = s.company_name
    ∧ (refineNode s).max_iterations = s.max_iterations
    ∧ (refineNode s).research_findings = s.research_findings
    ∧ (refineNode s).validation_report = s.validation_report
    ∧ (refineNode s).bid_outline = s.bid_outline
    ∧ (refineNode s).bid_research_package_path = s.bid_research_package_path
    ∧ (refineNode s).unified_bid_document_path = s.unified_bid_document_path
    ∧ (refineNode s).comprehensive_result_path = s.comprehensive_result_path
    ∧ (refineNode s).is_complete = s.is_complete
    ∧ (refineNode s).errors = s.errors := by
  simp [refineNode]

/-- C5: on both validator paths — the primary completion-service path
(`ValidatorAgent.process`, validator_agent.py lines 43-72) and the
deterministic fallback (`_simple_fallback_validation`, lines 286-334) —
the report satisfies `is_sufficient ↔ coverage_score ≥ 0.7`; in
particular a score of exactly `0.7` is sufficient and `0.6999` is not,
and the fallback hits the boundary the same way. -/
theorem C5_sufficiency_threshold :
    (∀ (score : ℚ) (queries notes : List String),
      (mkPrimaryValidationReport score queries notes).is_sufficient = true ↔
        7/10 ≤ (mkPrimaryValidationReport score queries notes).coverage_score)
    ∧ (∀ f : ResearchFindings,
      (simpleFallbackValidation f).is_sufficient = true ↔
        7/10 ≤ (simpleFallbackValidation f).coverage_score)
    ∧ (mkPrimaryValidationReport (7/10) [] []).is_sufficient = true
    ∧ (mkPrimaryValidationReport (6999/10000) [] []).is_sufficient = false
    ∧ (simpleFallbackValidation findingsBoundaryFix).coverage_score = 7/10
    ∧ (simpleFallbackValidation findingsBoundaryFix).is_sufficient = true := by
  refine ⟨?_, ?_, ?_, ?_, ?_, ?_⟩
  · intro score queries notes
    simp [mkPrimaryValidationReport]
  · intro f
    simp [simpleFallbackValidation]
  · with_unfolding_all decide
  · with_unfolding_all decide
  · with_unfolding_all decide
  · with_unfolding_all decide

/-- C7: every index stored in a `MappedInsight` produced by
`_create_insights` is strictly below the length of the evidence list
it was constructed from. -/
theorem C7_insight_indices_in_bounds (reqs : List Requirement)
    (evidence : List Evidence) (ins : MappedInsight)
    (h : ins ∈ createInsights reqs evidence)
    (i : Nat) (hi : i ∈ ins.supporting_evidence_idx) : i < evidence.length := by
  obtain ⟨req, _, _, hidx⟩ := createInsights_mem h
  rw [hidx] at hi
  exact List.mem_range.mp ((relevant_fst_sublist_range req evidence).subset hi)

/-- Witness for `C7_insight_indices_in_bounds` at a concrete insight. -/
theorem C7_witness :
    cInsFix ∈ createInsights [cReqFix] [cEvFix]
    ∧ 0 ∈ cInsFix.supporting_evidence_idx
    ∧ 0 < ([cEvFix] : List Evidence).length :=
  ⟨by with_unfolding_all decide, by decide,
    C7_insight_indices_in_bounds [cReqFix] [cEvFix] cInsFix
      (by with_unfolding_all decide) 0 (by decide)⟩

/-- C10: with pairwise-distinct requirement ids, `_create_insights`
emits at most one insight per requirement (their `requirement_id`s form
a duplicate-free subsequence of the requirement ids, in requirement
order) and each insight's `supporting_evidence_idx` is strictly
increasing. -/
theorem C10_insight_shape (reqs : List Requirement) (evidence : List Evidence) :
    ((createInsights reqs evidence).map (·.requirement_id)).Sublist
        (reqs.map (·.id))
    ∧ ((reqs.map (·.id)).Nodup →
        ((createInsights reqs evidence).map (·.requirement_id)).Nodup)
    ∧ ∀ ins ∈ createInsights reqs evidence,
        ins.supporting_evidence_idx.Pairwise (· < ·) := by
  have hsub : ((createInsights reqs evidence).map (·.requirement_id)).Sublist
      (reqs.map (·.id)) := by
    rw [createInsights]
    exact filterMap_map_sublist (insightFor evidence) _ _
      (fun a b hab => (insightFor_eq_some hab).1) reqs
  refine ⟨hsub, fun hnd => hnd.sublist hsub, ?_⟩
  intro ins hins
  obtain ⟨req, _, _, hidx⟩ := createInsights_mem hins
  rw [hidx]
  exact (List.pairwise_lt_range evidence.length).sublist
    (relevant_fst_sublist_range req evidence)

/-- Witness for `C10_insight_shape` at concrete inputs. -/
theorem C10_witness :
    ((createInsights [cReqFix] [cEvFix]).map (·.requirement_id)).Sublist
        (([cReqFix] : List Requirement).map (·.id))
    ∧ ((createInsights [cReqFix] [cEvFix]).map (·.requirement_id)).Nodup
    ∧ cInsFix.supporting_evidence_idx.Pairwise (· < ·) :=
  ⟨(C10_insight_shape [cReqFix] [cEvFix]).1,
    (C10_insight_shape [cReqFix] [cEvFix]).2.1 (by decide),
    (C10_insight_shape [cReqFix] [cEvFix]).2.2 cInsFix
      (by with_unfolding_all decide)⟩

/-- C6: `_calculate_confidence` equals the advertised sum — URL
component (`0.3` for the company name, spaces stripped, in the
lower-cased URL; else `0.2` for a `.gov`/`.edu`/`.org` URL; else `0`)
plus `min(0.4, matches/words · 0.4)` plus `0.2` for the company name in
the snippet — and always lands in `[0, 1]`.  (The final `min(1.0, ·)`
clamp of the source never bites: the three components sum to at most
`0.9`.) -/
theorem C6_confidence_formula (url snippet reqText companyName : String) :
    calculateConfidence url snippet reqText companyName =
        (if strContains (pyLower url) (removeSpaces (pyLower companyName)) then (3:ℚ)/10
         else if [".gov", ".edu", ".org"].any (fun d => strContains url d) then (2:ℚ)/10
         else 0)
        + ratMin ((4:ℚ)/10)
            ((((pySplitWs (pyLower reqText)).filter
                (fun w => strContains (pyLower snippet) w)).length : ℚ)
              / ((pySplitWs (pyLower reqText)).length : ℚ) * ((4:ℚ)/10))
        + (if strContains (pyLower snippet) (pyLower companyName) then (2:ℚ)/10 else 0)
    ∧ 0 ≤ calculateConfidence url snippet reqText companyName
    ∧ calculateConfidence url snippet reqText companyName ≤ 1 := by
  have key : ∀ a b c : ℚ, 0 ≤ a → a ≤ 3/10 → 0 ≤ b → b ≤ 4/10 → 0 ≤ c → c ≤ 2/10 →
      ratMin 1 (a + b + c) = a + b + c ∧
        0 ≤ a + b + c ∧ a + b + c ≤ 1 := by
    intro a b c ha ha' hb hb' hc hc'
    have hs : a + b + c ≤ 1 := by linarith
    refine ⟨?_, by linarith, hs⟩
    rw [ratMin, if_neg]
    intro h1
    have : a + b + c = 1 := le_antisymm hs h1
    linarith [ha', hb', hc']
  set m : Nat := ((pySplitWs (pyLower reqText)).filter
      (fun w => strContains (pyLower snippet) w)).length with hm
  set n : Nat := (pySplitWs (pyLower reqText)).length with hn
  set A : ℚ := (if strContains (pyLower url) (removeSpaces (pyLower companyName)) then (3:ℚ)/10
      else if [".gov", ".edu", ".org"].any (fun d => strContains url d) then (2:ℚ)/10
      else 0) with hA
  set B : ℚ := ratMin ((4:ℚ)/10) ((m : ℚ) / (n : ℚ) * ((4:ℚ)/10)) with hB
  set C : ℚ := (if strContains (pyLower snippet) (pyLower companyName) then (2:ℚ)/10 else 0)
    with hC
  have hA0 : 0 ≤ A ∧ A ≤ 3/10 := by
    rw [hA]; split_ifs <;> norm_num
  have hfrac : 0 ≤ (m : ℚ) / (n : ℚ) * ((4:ℚ)/10) := by positivity
  have hB0 : 0 ≤ B ∧ B ≤ 4/10 := by
    rw [hB, ratMin]; split_ifs with h
    · norm_num
    · exact ⟨hfrac, by linarith [not_le.mp h]⟩
  have hC0 : 0 ≤ C ∧ C ≤ 2/10 := by
    rw [hC]; split_ifs <;> norm_num
  have hcalc : calculateConfidence url snippet reqText companyName =
      ratMin 1 (A + B + C) := by
    rw [calculateConfidence]
    by_cases h0 : m > 0
    · simp only [← hm, ← hn, ← hA, ← hC, if_pos h0, ← hB]
    · have hm0 : m = 0 := by omega
      have : B = 0 := by
        rw [hB, hm0]
        norm_num [ratMin]
      simp only [← hm, ← hn, ← hA, ← hC, if_neg h0, this]
  obtain ⟨k1, k2, k3⟩ := key A B C hA0.1 hA0.2 hB0.1 hB0.2 hC0.1 hC0.2
  rw [hcalc, k1]
  exact ⟨rfl, k2, k3⟩

/-- C4 counterexample: when the completion-service call itself raises
during requirement extraction, `_extract_rfp_requirements` does *not*
return the fallback result — the fault propagates out of the stage
(the `self.llm.invoke` at research_agent.py lines 180-181 stands before
the `try:` block). -/
theorem C4_counterexample :
    extractRfpRequirements (.err "connection refused") parseNoneFix fbFix =
        .err "connection refused"
    ∧ (StageOutcome.err "connection refused" ≠
        (.ok fbFix : StageOutcome (RFPMeta × List Requirement))) := by
  exact ⟨rfl, by simp⟩

/-- C4 as amended: the stage recovers via the deterministic fallback
exactly when the completion-service call *returns* — on an empty
response or on any failure to parse/validate the response — while an
exception raised by the call itself propagates out of the stage
unchanged (it is caught only at the workflow boundary, as a
`"Research error"`). -/
theorem C4_extraction_fallback_on_parse_failure :
    (∀ (parse : String → Option (RFPMeta × List Requirement)) fb m,
      extractRfpRequirements (.err m) parse fb = .err m)
    ∧ (∀ (parse : String → Option (RFPMeta × List Requirement)) fb content,
        pyStrip content = "" →
        extractRfpRequirements (.ok content) parse fb = .ok fb)
    ∧ (∀ (parse : String → Option (RFPMeta × List Requirement)) fb content,
        pyStrip content ≠ "" →
        parse (extractFencedJson (pyStrip content)) = none →
        extractRfpRequirements (.ok content) parse fb = .ok fb)
    ∧ (∀ (parse : String → Option (RFPMeta × List Requirement)) fb content r,
        pyStrip content ≠ "" →
        parse (extractFencedJson (pyStrip content)) = some r →
        extractRfpRequirements (.ok content) parse fb = .ok r) := by
  refine ⟨fun parse fb m => rfl, ?_, ?_, ?_⟩
  · intro parse fb content h
    simp [extractRfpRequirements, h]
  · intro parse fb content h hp
    simp [extractRfpRequirements, h, hp]
  · intro parse fb content r h hp
    simp [extractRfpRequirements, h, hp]

/-- Witness for `C4_extraction_fallback_on_parse_failure` at concrete
inputs. -/
theorem C4_witness :
    extractRfpRequirements (.err "boom") parseNoneFix fbFix = .err "boom"
    ∧ extractRfpRequirements (.ok "   ") parseNoneFix fbFix = .ok fbFix
    ∧ extractRfpRequirements (.ok "not json") parseNoneFix fbFix = .ok fbFix
    ∧ extractRfpRequirements (.ok "x") parseSomeFix fbFix =
        .ok (metaFix, [cReqFix]) :=
  ⟨C4_extraction_fallback_on_parse_failure.1 parseNoneFix fbFix "boom",
    C4_extraction_fallback_on_parse_failure.2.1 parseNoneFix fbFix "   "
      (by decide),
    C4_extraction_fallback_on_parse_failure.2.2.1 parseNoneFix fbFix "not json"
      (by decide) rfl,
    C4_extraction_fallback_on_parse_failure.2.2.2 parseSomeFix fbFix "x"
      (metaFix, [cReqFix]) (by decide) rfl⟩

/-- C8 counterexample: on the scenario text, with the completion
service unavailable, the fallback's deadline is `"2025-06-01."` — the
`deadline[:\s]+([^\n\r]+)` capture keeps the sentence's final period
and `strip()` removes only whitespace — not the claimed
`"2025-06-01"`; and the single extracted requirement is categorised
`SUPPORT` with priority `"medium"`, not `USERS`/`"critical"`. -/
theorem C8_counterexample :
    fallbackDeadline c8Text = "2025-06-01."
    ∧ fallbackDeadline c8Text ≠ "2025-06-01"
    ∧ fallbackRegexRequirements c8Text [] = [c8ReqFix]
    ∧ c8ReqFix.category ≠ RequirementCategory.users
    ∧ c8ReqFix.priority ≠ "critical" := by
  with_unfolding_all decide

/-- C8 as amended: on the scenario text with the completion service
unavailable, the fallback extracts deadline `"2025-06-01."` (trailing
period included, via the `deadline` pattern) and exactly one
requirement, `"support 500 users"` — whose text contains
`"500 users"` — categorised `SUPPORT` (the support-keyword check runs
before the users check and the captured text contains `"support"`)
with priority `"medium"` (the regex consumes `"shall"`, so the
captured text has no priority keyword). -/
theorem C8_fallback_extraction_scenario :
    fallbackExtractionNoLlm c8Text = ("2025-06-01.", [c8ReqFix])
    ∧ strContains c8ReqFix.text "500 users" = true
    ∧ c8ReqFix.category = RequirementCategory.support
    ∧ c8ReqFix.priority = "medium"
    ∧ categorizeRequirement "support 500 users" = RequirementCategory.support
    ∧ determinePriority "support 500 users" = "medium" := by
  with_unfolding_all decide

/-- C3 counterexample: a fault caught in `_save_research_node` does
*not* force `is_complete = true` (its handler only appends the tagged
error), and does not short-circuit the workflow to END — with the save
stage failing, the unified-document and comprehensive-result stages
still run afterwards (their output paths get set) before END. -/
theorem C3_counterexample :
    (saveResearchNode envSaveFailsFix stateMidFix).is_complete = false
    ∧ (saveResearchNode envSaveFailsFix stateMidFix).errors =
        ["Research package saving error: disk full"]
    ∧ (runWorkflow envSaveFailsFix "run-1" "rfp.pdf" "Acme" 0).map
        (fun r => (r.1, r.2.errors, r.2.unified_bid_document_path,
          r.2.comprehensive_result_path, r.2.is_complete)) =
      some (1, ["Research package saving error: disk full"],
        "unified.md", "result.json", true) := by
  with_unfolding_all decide

/-- C3 as amended: faults in the research, validate and write stages
are caught, appended to `errors` as `"<StageName> error: <message>"`,
and force `is_complete = true`.  Faults in the three post-write
artifact stages (save-research, unified-document,
comprehensive-result) are caught and appended as tagged strings, but
their handlers leave `is_complete` unchanged — it is already `true`
at that point because the write stage always sets it — and the
workflow does not short-circuit: the remaining artifact stages still
run before END.  No stage is retried. -/
theorem C3_stage_fault_capture :
    (∀ env k s m, env.research k = .err m →
      researchNode env k s =
        { s with errors := s.errors ++ ["Research error: " ++ m],
                 is_complete := true })
    ∧ (∀ env k s m f, env.validate k = .err m → s.research_findings = some f →
        validateNode env k s =
          { s with errors := s.errors ++ ["Validation error: " ++ m],
                   is_complete := true })
    ∧ (∀ env s m f, env.write = .err m → s.research_findings = some f →
        writeNode env s =
          { s with errors := s.errors ++ ["Writing error: " ++ m],
                   is_complete := true })
    ∧ (∀ env s m f v, env.save = .err m → s.research_findings = some f →
        s.validation_report = some v →
        saveResearchNode env s =
          { s with errors := s.errors ++ ["Research package saving error: " ++ m] })
    ∧ (∀ env s m f v, env.unified = .err m → s.research_findings = some f →
        s.validation_report = some v →
        generateUnifiedNode env s =
          { s with errors := s.errors ++ ["Unified document generation error: " ++ m] })
    ∧ (∀ env s m f v, env.comprehensive = .err m → s.research_findings = some f →
        s.validation_report = some v →
        generateComprehensiveNode env s =
          { s with errors := s.errors ++ ["Comprehensive result generation error: " ++ m] })
    ∧ (∀ env s, (writePipeline env s).is_complete = true)
    ∧ (∀ env s m u c f v, env.save = .err m → env.unified = .ok u →
        env.comprehensive = .ok c → s.research_findings = some f →
        s.validation_report = some v →
        ("Research package saving error: " ++ m) ∈ (writePipeline env s).errors
        ∧ (writePipeline env s).unified_bid_document_path = u
        ∧ (writePipeline env s).comprehensive_result_path = c) := by
  refine ⟨?_, ?_, ?_, ?_, ?_, ?_, ?_, ?_⟩
  · intro env k s m h
    simp [researchNode, h]
  · intro env k s m f h hf
    simp [validateNode, h, hf]
  · intro env s m f h hf
    simp [writeNode, h, hf]
  · intro env s m f v h hf hv
    simp [saveResearchNode, h, hf, hv]
  · intro env s m f v h hf hv
    simp [generateUnifiedNode, h, hf, hv]
  · intro env s m f v h hf hv
    simp [generateComprehensiveNode, h, hf, hv]
  · intro env s
    exact writePipeline_complete env s
  · intro env s m u c f v hs hu hc hf hv
    rcases s with ⟨run_id, rfp, comp, mi, ci, rf, vr, bo, p1, p2, p3, ic, errs⟩
    simp only at hf hv
    subst hf hv
    cases hw : env.write <;>
      simp [writePipeline, writeNode, saveResearchNode, generateUnifiedNode,
        generateComprehensiveNode, hw, hs, hu, hc]

/-- Witness for `C3_stage_fault_capture` at concrete inputs. -/
theorem C3_witness :
    researchNode envResearchFailsFix 0 stateBaseFix =
      { stateBaseFix with errors := ["Research error: no key"], is_complete := true }
    ∧ (writePipeline envSaveFailsFix stateMidFix).is_complete = true
    ∧ (("Research package saving error: disk full") ∈
          (writePipeline envSaveFailsFix stateMidFix).errors
        ∧ (writePipeline envSaveFailsFix stateMidFix).unified_bid_document_path =
            "unified.md"
        ∧ (writePipeline envSaveFailsFix stateMidFix).comprehensive_result_path =
            "result.json") :=
  ⟨C3_stage_fault_capture.1 envResearchFailsFix 0 stateBaseFix "no key" rfl,
    C3_stage_fault_capture.2.2.2.2.2.2.1 envSaveFailsFix stateMidFix,
    C3_stage_fault_capture.2.2.2.2.2.2.2 envSaveFailsFix stateMidFix "disk full"
      "unified.md" "result.json" findingsFix reportSufficientFix
      rfl rfl rfl rfl rfl⟩

/-- A validate pass after a failed stage keeps the recorded failure:
non-empty `errors` stay non-empty and `is_complete = true` stays set. -/
theorem validateNode_keeps_failure (env : Env) (k : Nat) (s1 : WorkflowState)
    (h : s1.errors ≠ []) (hc : s1.is_complete = true) :
    (validateNode env k s1).errors ≠ [] ∧
      (validateNode env k s1).is_complete = true := by
  rw [validateNode]
  cases s1.research_findings with
  | none => simp
  | some f =>
    cases env.validate k with
    | ok r => exact ⟨h, hc⟩
    | err m => simp

/-- A non-empty `errors` list routes `_should_refine` to `"end"`. -/
theorem shouldRefine_of_errors {s : WorkflowState} (h : s.errors ≠ []) :
    shouldRefine s = "end" := by
  simp [shouldRefine, h]

/-- Totality of the run loop: from any state with no recorded errors,
fuel beyond the remaining iteration budget never runs out, the loop
returns, the final state is complete, and at most `fuel` research
passes were taken.  This is the inductive core of claim C2. -/
theorem runFrom_total (env : Env) :
    ∀ (fuel k : Nat) (s : WorkflowState),
      s.errors = [] → 1 ≤ fuel →
      s.max_iterations < s.current_iteration + (fuel : Int) →
      ∃ n s', runFrom env fuel k s = some (n, s')
        ∧ s'.is_complete = true ∧ n ≤ fuel := by
  intro fuel
  induction fuel with
  | zero => intro k s _ h1 _; omega
  | succ fuel ih =>
    intro k s herr _ hfuel
    cases hr : env.research k with
    | err m =>
      have hs1 : researchNode env k s =
          { s with errors := ["Research error: " ++ m], is_complete := true } := by
        simp [researchNode, hr, herr]
      obtain ⟨h2e, h2c⟩ := validateNode_keeps_failure env k (researchNode env k s)
        (by rw [hs1]; simp) (by rw [hs1])
      refine ⟨1, validateNode env k (researchNode env k s), ?_, h2c, by omega⟩
      simp [runFrom, shouldRefine_of_errors h2e]
    | ok f =>
      cases hv : env.validate k with
      | err m =>
        have hs2 : validateNode env k (researchNode env k s) = { s with research_findings := some f, errors := ["Validation error: " ++ m], is_complete := true } := by
          simp [researchNode, validateNode, hr, hv, herr]
        have h2e : (validateNode env k (researchNode env k s)).errors ≠ [] := by
          rw [hs2]; simp
        refine ⟨1, validateNode env k (researchNode env k s), ?_,
          by rw [hs2], by omega⟩
        simp [runFrom, shouldRefine_of_errors h2e]
      | ok r =>
        have hs2 : validateNode env k (researchNode env k s) = { s with research_findings := some f, validation_report := some r } := by
          simp [researchNode, validateNode, hr, hv]
        by_cases hge : s.max_iterations ≤ s.current_iteration
        · have hsr : shouldRefine { s with research_findings := some f, validation_report := some r } = "write" := by
            simp [shouldRefine, herr, hge]
          refine ⟨1, writePipeline env { s with research_findings := some f, validation_report := some r }, ?_,
            writePipeline_complete env _, by omega⟩
          simp [runFrom, hs2, hsr]
        · by_cases hsuf : r.is_sufficient = true
          · have hsr : shouldRefine { s with research_findings := some f, validation_report := some r } = "write" := by
              simp [shouldRefine, herr, hge, hsuf]
            refine ⟨1, writePipeline env { s with research_findings := some f, validation_report := some r }, ?_,
              writePipeline_complete env _, by omega⟩
            simp [runFrom, hs2, hsr]
          · have hsr : shouldRefine { s with research_findings := some f, validation_report := some r } = "refine" := by
              simp [shouldRefine, herr, hge, hsuf]
            have h1f : 1 ≤ fuel := by omega
            obtain ⟨n, s', hrun, hc, hn⟩ := ih (k + 1)
              (refineNode { s with research_findings := some f, validation_report := some r })
              (by simp [refineNode, herr]) h1f
              (by simp only [refineNode]; omega)
            refine ⟨n + 1, s', ?_, hc, by omega⟩
            simp [runFrom, hs2, hsr, hrun]

/-- C2: from the initial state, for any `max_iterations ≥ 0`, the
workflow terminates with `is_complete = true` after at most
`max_iterations + 1` research passes — the refine transition cannot
loop unboundedly. -/
theorem C2_termination_bound (env : Env) (run_id rfp_path company_name : String)
    (m : Int) (hm : 0 ≤ m) :
    ∃ n s', runWorkflow env run_id rfp_path company_name m = some (n, s')
      ∧ s'.is_complete = true ∧ (n : Int) ≤ m + 1 := by
  obtain ⟨n, s', h1, h2, h3⟩ := runFrom_total env ((m + 1).toNat) 0
    (initialWorkflowState run_id rfp_path company_name m) rfl (by omega)
    (by simp only [initialWorkflowState]; omega)
  exact ⟨n, s', h1, h2, by omega⟩

/-- Witness for `C2_termination_bound` at a concrete environment whose
validator never finds the research sufficient. -/
theorem C2_witness :
    (0 : Int) ≤ 1 ∧
      ∃ n s', runWorkflow envRefineFix "run-1" "rfp.pdf" "Acme" 1 = some (n, s')
        ∧ s'.is_complete = true ∧ (n : Int) ≤ 1 + 1 :=
  ⟨by decide, C2_termination_bound envRefineFix "run-1" "rfp.pdf" "Acme" 1 (by decide)⟩

/-- C1: the refine/write/end decision of `_should_refine` follows the
specified order — errors → `"end"`; else iteration budget exhausted →
`"write"`; else no validation report → `"end"`; else sufficient →
`"write"`; else `"refine"` — the refine node increments the iteration
counter by one, and with `max_iterations = 0` a run with working
research and validation stages performs exactly one research pass and
routes straight to the write pipeline regardless of the validation
report. -/
theorem C1_decision_order :
    (∀ s : WorkflowState, s.errors ≠ [] → shouldRefine s = "end")
    ∧ (∀ s : WorkflowState, s.errors = [] →
        s.max_iterations ≤ s.current_iteration → shouldRefine s = "write")
    ∧ (∀ s : WorkflowState, s.errors = [] →
        s.current_iteration < s.max_iterations →
        s.validation_report = none → shouldRefine s = "end")
    ∧ (∀ (s : WorkflowState) (v : ValidationReport), s.errors = [] →
        s.current_iteration < s.max_iterations →
        s.validation_report = some v → v.is_sufficient = true →
        shouldRefine s = "write")
    ∧ (∀ (s : WorkflowState) (v : ValidationReport), s.errors = [] →
        s.current_iteration < s.max_iterations →
        s.validation_report = some v → v.is_sufficient = false →
        shouldRefine s = "refine")
    ∧ (∀ s : WorkflowState,
        (refineNode s).current_iteration = s.current_iteration + 1)
    ∧ (∀ (env : Env) (f : ResearchFindings) (r : ValidationReport),
        env.research 0 = .ok f → env.validate 0 = .ok r →
        ∀ run_id rfp_path company_name,
          runWorkflow env run_id rfp_path company_name 0 =
            some (1, writePipeline env (validateNode env 0 (researchNode env 0
              (initialWorkflowState run_id rfp_path company_name 0))))) := by
  refine ⟨?_, ?_, ?_, ?_, ?_, ?_, ?_⟩
  · intro s h; simp [shouldRefine, h]
  · intro s herr hge; simp [shouldRefine, herr, hge]
  · intro s herr hlt hrep
    simp [shouldRefine, herr, hrep, not_le.mpr hlt]
  · intro s v herr hlt hrep hsuf
    simp [shouldRefine, herr, hrep, hsuf, not_le.mpr hlt]
  · intro s v herr hlt hrep hsuf
    simp [shouldRefine, herr, hrep, hsuf, not_le.mpr hlt]
  · intro s; simp [refineNode]
  · intro env f r hr hv run_id rfp_path company_name
    have hs2 : validateNode env 0 (researchNode env 0 (initialWorkflowState run_id rfp_path company_name 0)) = { initialWorkflowState run_id rfp_path company_name 0 with research_findings := some f, validation_report := some r } := by
      simp [researchNode, validateNode, hr, hv, initialWorkflowState]
    have hsr : shouldRefine { initialWorkflowState run_id rfp_path company_name 0 with research_findings := some f, validation_report := some r } = "write" := by
      simp [shouldRefine, initialWorkflowState]
    have hfuel : ((0 : Int) + 1).toNat = 1 := by decide
    rw [runWorkflow, hfuel]
    simp [runFrom, hs2, hsr]

/-- Witness for `C1_decision_order` at concrete states and a concrete
environment. -/
theorem C1_witness :
    shouldRefine stateErrFix = "end"
    ∧ shouldRefine stateIterDoneFix = "write"
    ∧ shouldRefine stateBaseFix = "end"
    ∧ shouldRefine stateSufficientFix = "write"
    ∧ shouldRefine stateInsufficientFix = "refine"
    ∧ (refineNode stateBaseFix).current_iteration =
        stateBaseFix.current_iteration + 1
    ∧ runWorkflow envRefineFix "run-1" "rfp.pdf" "Acme" 0 =
        some (1, writePipeline envRefineFix (validateNode envRefineFix 0
          (researchNode envRefineFix 0
            (initialWorkflowState "run-1" "rfp.pdf" "Acme" 0)))) :=
  ⟨C1_decision_order.1 stateErrFix (by decide),
    C1_decision_order.2.1 stateIterDoneFix rfl (by decide),
    C1_decision_order.2.2.1 stateBaseFix rfl (by decide) rfl,
    C1_decision_order.2.2.2.1 stateSufficientFix reportSufficientFix rfl
      (by decide) rfl rfl,
    C1_decision_order.2.2.2.2.1 stateInsufficientFix reportInsufficientFix rfl
      (by decide) rfl rfl,
    C1_decision_order.2.2.2.2.2.1 stateBaseFix,
    C1_decision_order.2.2.2.2.2.2 envRefineFix findingsFix reportInsufficientFix
      rfl rfl "run-1" "rfp.pdf" "Acme"⟩

end TenderResearch
